import Mathlib

/-!
Verification of the request-governor, knowledge-base-builder and
recommendation-flow logic of the `ai_product_recommender` repository
(`src/app.py`, `src/build_summary.py`), as a shallow embedding in Lean 4.
Time values are rationals (Python floats are modelled exactly at the
inputs we use); machine effects (filesystem, model provider) are passed
explicitly.
-/

namespace AIRec

/-! ## Constants (src/app.py lines 39-41) -/

def MAX_RETRIES : Nat := 3

def RETRY_DELAY : Nat := 6

def REQUEST_COOLDOWN : ℚ := 10

/-! ## Substring containment, Python `\"429\" in str(e)` -/

/-- `subOccurs pat l` is true iff `pat` occurs as a contiguous run in `l`. -/
def subOccurs (pat : List Char) : List Char → Bool
  | [] => pat.isEmpty
  | c :: rest => List.isPrefixOf pat (c :: rest) || subOccurs pat rest

/-- Python `"429" in str(e)` from src/app.py line 50. -/
def contains429 (e : String) : Bool := subOccurs ("429".toList) e.toList

/-! ## generate_with_retry (src/app.py lines 44-58) -/

/-- Outcome of one invocation of the wrapped operation `call_fn`:
a returned value or a raised exception carrying its error text. -/
inductive CallResult (α : Type) where
  | ok : α → CallResult α
  | err : String → CallResult α
deriving DecidableEq, Repr

/-- The distinct error raised when the retry budget is exhausted
(src/app.py lines 54-56). -/
def quotaMsg : String :=
  "API quota reached. Please wait a few minutes and try again."

/-- Trace of one run of `generate_with_retry`: the final outcome (returned
value or raised error text), how many times `call_fn` was invoked, and the
list of delays slept (in order). -/
structure RetryTrace (α : Type) where
  result : Except String α
  attempts : Nat
  sleeps : List Nat

/-- The body of the `for attempt in range(MAX_RETRIES)` loop of
`generate_with_retry`, from the iteration with index `attempt`;
`fuel` is the number of loop iterations remaining
(`MAX_RETRIES - attempt` at every call site, so the `fuel = 0` branch,
Python's fall-through `return None`, is unreachable from
`generate_with_retry` and modelled as an error). `call_fn i` is the
outcome of the `i`-th invocation of the wrapped operation. -/
def retryLoop {α : Type} (call_fn : Nat → CallResult α) :
    (attempt : Nat) → (fuel : Nat) → RetryTrace α
  | _, 0 => { result := Except.error "loop exhausted", attempts := 0, sleeps := [] }
  | attempt, fuel + 1 =>
    match call_fn attempt with
    | CallResult.ok v => { result := Except.ok v, attempts := 1, sleeps := [] }
    | CallResult.err e =>
      if contains429 e then
        if attempt < MAX_RETRIES - 1 then
          let rest := retryLoop call_fn (attempt + 1) fuel
          { result := rest.result,
            attempts := rest.attempts + 1,
            sleeps := RETRY_DELAY :: rest.sleeps }
        else
          { result := Except.error quotaMsg, attempts := 1, sleeps := [] }
      else
        { result := Except.error e, attempts := 1, sleeps := [] }

/-- `generate_with_retry` (src/app.py lines 44-58): retry the wrapped call
on 429 errors, up to `MAX_RETRIES` attempts, sleeping `RETRY_DELAY`
between consecutive attempts. -/
def generate_with_retry {α : Type} (call_fn : Nat → CallResult α) : RetryTrace α :=
  retryLoop call_fn 0 MAX_RETRIES

/-! ## check_cooldown (src/app.py lines 61-72) -/

/-- The session-scoped cooldown state: `st.session_state["last_request_time"]`,
absent (`none`) until the first accepted request. -/
structure CooldownState where
  last_request_time : Option ℚ
deriving DecidableEq, Repr

/-- Python `int(...)`: truncation toward zero. -/
def pyInt (q : ℚ) : ℤ := if 0 ≤ q then ⌊q⌋ else -⌊-q⌋

/-- Result of one `check_cooldown` call: the returned Bool, the remaining
wait time shown by `st.warning` when rejected, and the session state
after the call. -/
structure CooldownResult where
  allowed : Bool
  warned : Option ℤ
  state : CooldownState
deriving DecidableEq, Repr

/-- `check_cooldown` (src/app.py lines 61-72). `st.session_state.get`
defaults an absent timestamp to `0`; a request within `REQUEST_COOLDOWN`
of the last accepted one is rejected with the truncated remaining wait,
otherwise the current time is recorded and the request allowed. -/
def check_cooldown (s : CooldownState) (current_time : ℚ) : CooldownResult :=
  let last_time := s.last_request_time.getD 0
  if current_time - last_time < REQUEST_COOLDOWN then
    { allowed := false,
      warned := some (pyInt (REQUEST_COOLDOWN - (current_time - last_time))),
      state := s }
  else
    { allowed := true,
      warned := none,
      state := { last_request_time := some current_time } }

/-! ## Startup credential handling (src/app.py lines 13-17, src/build_summary.py lines 7-10) -/

/-- Python truthiness of `os.getenv` results: `not API_KEY` is true when the
variable is absent (`None`) or the empty string. -/
def pyFalsyStr : Option String → Bool
  | none => true
  | some s => s.toList.isEmpty

/-- The module-level credential check of src/app.py lines 14-17:
`if not API_KEY: raise ValueError(...)`, run before any model call. -/
def app_startup (api_key : Option String) : Except String Unit :=
  if pyFalsyStr api_key then Except.error "API_KEY not found in .env file"
  else Except.ok ()

/-! ## Knowledge-base builder (src/build_summary.py) -/

/-- Python `str.endswith`, by char list suffix. -/
def strEndsWith (s suf : String) : Bool := List.isSuffixOf suf.toList s.toList

/-- Python `c.isspace()` for the characters `str.strip` removes. -/
def pyIsSpace (c : Char) : Bool :=
  c = ' ' || c = '\t' || c = '\n' || c = '\r' || c = '\x0b' || c = '\x0c'

/-- Python `not s.strip()`: true iff every character of `s` is whitespace
(in particular for the empty string). -/
def pyStripEmpty (s : String) : Bool := s.toList.all pyIsSpace

/-- One entry of the documents directory listing: its file name, the page
texts `pypdf` would extract if it were read as a PDF (`none` for a page
where `page.extract_text()` returns `None`), and the content `open(...).read()`
would return if it were read as text. Only one of the two is ever consulted,
chosen by the name's extension. -/
structure DirEntry where
  name : String
  pdfPages : List (Option String)
  txtContent : String

/-- `extract_text_from_pdf` (src/build_summary.py lines 17-22):
concatenates `page.extract_text() or ""` over the pages. -/
def extract_text_from_pdf (pages : List (Option String)) : String :=
  pages.foldl (fun text p => text ++ p.getD "") ""

/-- The per-file contribution of the dispatch loop
(src/build_summary.py lines 27-34): `.pdf` files are extracted, `.txt`
files are read verbatim, all other extensions are skipped. -/
def entryText (e : DirEntry) : String :=
  if strEndsWith e.name ".pdf" then extract_text_from_pdf e.pdfPages
  else if strEndsWith e.name ".txt" then e.txtContent
  else ""

/-- `all_text` accumulated over the directory listing
(src/build_summary.py lines 25-34). -/
def all_text (dir : List DirEntry) : String :=
  dir.foldl (fun acc e => acc ++ entryText e) ""

/-- The fixed summarization instructions of the prompt f-string
(src/build_summary.py lines 41-57), up to the interpolated `all_text`. -/
def kbPromptPre : String :=
  "\nYou are an insurance domain expert.\n\nSummarize the following product documents into a structured knowledge base.\n\nFor each product include:\n- Product Name\n- Target customer\n- Key benefits\n- Coverage highlights\n- Ideal use case\n\nKeep it concise and structured.\n\nDOCUMENTS:\n"

/-- The full prompt sent to the model (src/build_summary.py lines 41-57). -/
def kb_prompt (t : String) : String := kbPromptPre ++ t ++ "\n"

/-- Observable trace of one run of build_summary.py: the prompts sent to
the model, the content written to `kb_summary.txt` (`none` when the file is
neither created nor overwritten), and the error raised, if any. -/
structure BuildTrace where
  modelCalls : List String
  written : Option String
  buildError : Option String

/-- The module-level flow of src/build_summary.py. The script reads
`API_KEY` and passes it straight to the external `genai.Client`
constructor (an out-of-scope boundary); no in-repo check rejects an
absent key, so the trace does not depend on `_api_key` — the parameter is
kept to state credential claims. `model` is the external model's text
response as a function of the prompt. If `all_text` strips to empty the
script raises before any model call and before opening the output file;
otherwise it sends one prompt and writes the response verbatim
(src/build_summary.py lines 36-65). -/
def build_summary (_api_key : Option String) (dir : List DirEntry)
    (model : String → String) : BuildTrace :=
  if pyStripEmpty (all_text dir) then
    { modelCalls := [], written := none,
      buildError := some "No text found in documents." }
  else
    let p := kb_prompt (all_text dir)
    { modelCalls := [p], written := some (model p), buildError := none }

/-! ## Recommendation-flow analysis attempt (src/app.py lines 183-319) -/

/-- Filesystem as a predicate on paths: `fs p = true` iff `p` exists. -/
def fsWrite (fs : String → Bool) (p : String) : String → Bool :=
  fun q => if q = p then true else fs q

/-- `os.remove p` on the path-existence predicate. -/
def fsRemove (fs : String → Bool) (p : String) : String → Bool :=
  fun q => if q = p then false else fs q

/-- The external outcomes one analysis attempt can encounter inside the
`try` block: whether `client.files.upload` succeeds, the outcomes of the
wrapped `generate_content` calls (fed through `generate_with_retry`),
and whether rendering the response succeeds. -/
structure AnalysisEnv (α : Type) where
  uploadOk : Bool
  modelResults : Nat → CallResult α
  renderOk : Bool

/-- Observable trace of one analysis attempt: the final filesystem,
whether the report was rendered, and the error text shown by the
`except` handler, if any. -/
structure AnalysisTrace where
  fs : String → Bool
  reportShown : Bool
  errorShown : Option String

/-- The analysis attempt after `check_cooldown` allowed it
(src/app.py lines 188-319): write the temporary audio file, run the
`try` block (upload, `generate_with_retry` model call, render — none of
which touches the temporary file), catch any failure in `except`, and in
`finally` remove the temporary file if it exists. -/
def run_analysis {α : Type} (fs0 : String → Bool) (temp_path : String)
    (env : AnalysisEnv α) : AnalysisTrace :=
  let fs1 := fsWrite fs0 temp_path
  let body : Except String Unit :=
    if env.uploadOk then
      match (generate_with_retry env.modelResults).result with
      | Except.error e => Except.error e
      | Except.ok _ =>
        if env.renderOk then Except.ok () else Except.error "render failed"
    else Except.error "upload failed"
  let fs2 := if fs1 temp_path then fsRemove fs1 temp_path else fs1
  match body with
  | Except.ok _ => { fs := fs2, reportShown := true, errorShown := none }
  | Except.error e => { fs := fs2, reportShown := false, errorShown := some e }

/-! ## Helper lemmas -/

/-- A rejected call leaves the session state unchanged (helper for witnesses). -/
lemma check_cooldown_rejects_of_lt (last t : ℚ) (h : t - last < REQUEST_COOLDOWN) :
    (check_cooldown ⟨some last⟩ t).allowed = false := by
  simp [check_cooldown, h]

lemma all_text_acc (dir : List DirEntry) (acc : String) :
    dir.foldl (fun a e => a ++ entryText e) acc = acc ++ all_text dir := by
  induction dir generalizing acc with
  | nil => simp [all_text]
  | cons e rest ih =>
    show rest.foldl _ (acc ++ entryText e) = _
    rw [ih (acc ++ entryText e)]
    have : all_text (e :: rest) = entryText e ++ all_text rest := by
      show rest.foldl _ ("" ++ entryText e) = _
      rw [ih ("" ++ entryText e)]
      simp [String.append_assoc]
    rw [this, String.append_assoc]

lemma all_text_append (d1 d2 : List DirEntry) :
    all_text (d1 ++ d2) = all_text d1 ++ all_text d2 := by
  show (d1 ++ d2).foldl _ "" = _
  rw [List.foldl_append]
  exact all_text_acc d2 (d1.foldl (fun acc e => acc ++ entryText e) "")

lemma all_text_cons (e : DirEntry) (rest : List DirEntry) :
    all_text (e :: rest) = entryText e ++ all_text rest := by
  show rest.foldl _ ("" ++ entryText e) = _
  rw [all_text_acc]
  simp

lemma all_text_single (e : DirEntry) : all_text [e] = entryText e := by
  show [e].foldl _ "" = _
  simp

lemma all_text_unsupported (l : List DirEntry)
    (h : ∀ e ∈ l, strEndsWith e.name ".pdf" = false ∧ strEndsWith e.name ".txt" = false) :
    all_text l = "" := by
  induction l with
  | nil => rfl
  | cons e rest ih =>
    have he := h e (by simp)
    rw [all_text_cons, ih (fun x hx => h x (by simp [hx]))]
    simp [entryText, he.1, he.2]

/-! ## Claim theorems -/

/-- C1: if the wrapped operation fails with an error whose text contains
"429" on every attempt, `generate_with_retry` performs exactly 3 attempts,
sleeps the fixed 6-unit delay exactly twice (between consecutive
attempts), and raises the distinct quota-exceeded error instead of the
underlying failure. -/
theorem retry_all429_three_attempts_two_sleeps_quota {α : Type}
    (call_fn : Nat → CallResult α)
    (h : ∀ i, i < MAX_RETRIES → ∃ e, call_fn i = CallResult.err e ∧ contains429 e = true) :
    (generate_with_retry call_fn).result = Except.error quotaMsg ∧
    (generate_with_retry call_fn).attempts = 3 ∧
    (generate_with_retry call_fn).sleeps = [RETRY_DELAY, RETRY_DELAY] := by
  obtain ⟨e0, h0, c0⟩ := h 0 (by norm_num [MAX_RETRIES])
  obtain ⟨e1, h1, c1⟩ := h 1 (by norm_num [MAX_RETRIES])
  obtain ⟨e2, h2, c2⟩ := h 2 (by norm_num [MAX_RETRIES])
  simp [generate_with_retry, retryLoop, MAX_RETRIES, h0, h1, h2, c0, c1, c2]

/-- Witness for C1 at the operation that always raises "got 429". -/
theorem retry_all429_three_attempts_two_sleeps_quota_witness :
    (generate_with_retry (fun _ : Nat => CallResult.err (α := Unit) "got 429")).result
      = Except.error quotaMsg ∧
    (generate_with_retry (fun _ : Nat => CallResult.err (α := Unit) "got 429")).attempts = 3 ∧
    (generate_with_retry (fun _ : Nat => CallResult.err (α := Unit) "got 429")).sleeps
      = [RETRY_DELAY, RETRY_DELAY] :=
  retry_all429_three_attempts_two_sleeps_quota _
    (fun _ _ => ⟨"got 429", rfl, by decide⟩)

/-- C3: a first-attempt failure whose text does not contain "429" is
re-raised as-is: one attempt, no sleeps, the original error. -/
theorem retry_non429_reraised_immediately {α : Type}
    (call_fn : Nat → CallResult α) (e : String)
    (h : call_fn 0 = CallResult.err e) (hc : contains429 e = false) :
    (generate_with_retry call_fn).result = Except.error e ∧
    (generate_with_retry call_fn).attempts = 1 ∧
    (generate_with_retry call_fn).sleeps = [] := by
  simp [generate_with_retry, retryLoop, MAX_RETRIES, h, hc]

/-- Witness for C3 at the operation that raises "boom" first. -/
theorem retry_non429_reraised_immediately_witness :
    (generate_with_retry (fun _ : Nat => CallResult.err (α := Unit) "boom")).result
      = Except.error "boom" ∧
    (generate_with_retry (fun _ : Nat => CallResult.err (α := Unit) "boom")).attempts = 1 ∧
    (generate_with_retry (fun _ : Nat => CallResult.err (α := Unit) "boom")).sleeps = [] :=
  retry_non429_reraised_immediately _ "boom" rfl (by decide)

/-- C2: for every elapsed duration `t - last` strictly below the 10-unit
cooldown threshold, `check_cooldown` rejects the request and reports a
remaining wait equal to the threshold minus the elapsed time, rounded
down to an integer. -/
theorem check_cooldown_reject_reports_floor (last t : ℚ)
    (h : t - last < REQUEST_COOLDOWN) :
    (check_cooldown ⟨some last⟩ t).allowed = false ∧
    (check_cooldown ⟨some last⟩ t).warned =
      some ⌊REQUEST_COOLDOWN - (t - last)⌋ := by
  have hq : (0 : ℚ) ≤ REQUEST_COOLDOWN - (t - last) := by
    simp only [REQUEST_COOLDOWN] at h ⊢
    linarith
  simp [check_cooldown, h, pyInt, hq]

/-- Witness for C2 at `last = 0`, `t = 7/2` (elapsed 3.5, remaining ⌊6.5⌋). -/
theorem check_cooldown_reject_reports_floor_witness :
    (check_cooldown ⟨some 0⟩ (7/2)).allowed = false ∧
    (check_cooldown ⟨some 0⟩ (7/2)).warned =
      some ⌊REQUEST_COOLDOWN - ((7/2 : ℚ) - 0)⌋ :=
  check_cooldown_reject_reports_floor 0 (7/2) (by norm_num [REQUEST_COOLDOWN])

/-- C4: for every elapsed duration `t - last` at or above the 10-unit
threshold, `check_cooldown` allows the request and records the current
time as the new last-accepted time. -/
theorem check_cooldown_accept_resets_timer (last t : ℚ)
    (h : REQUEST_COOLDOWN ≤ t - last) :
    (check_cooldown ⟨some last⟩ t).allowed = true ∧
    (check_cooldown ⟨some last⟩ t).state = ⟨some t⟩ := by
  simp [check_cooldown, not_lt.mpr h]

/-- Witness for C4 at `last = 0`, `t = 20`. -/
theorem check_cooldown_accept_resets_timer_witness :
    (check_cooldown ⟨some 0⟩ 20).allowed = true ∧
    (check_cooldown ⟨some 0⟩ 20).state = ⟨some 20⟩ :=
  check_cooldown_accept_resets_timer 0 20 (by norm_num [REQUEST_COOLDOWN])

/-- C5: `check_cooldown` mutates the stored timestamp only when it
returns allowed; every rejected call leaves the session state unchanged. -/
theorem check_cooldown_frame_on_reject (s : CooldownState) (t : ℚ)
    (h : (check_cooldown s t).allowed = false) :
    (check_cooldown s t).state = s := by
  by_cases hc : t - s.last_request_time.getD 0 < REQUEST_COOLDOWN
  · simp [check_cooldown, hc]
  · simp [check_cooldown, hc] at h

/-- Witness for C5 at state `some 0`, time `3` (a rejected call). -/
theorem check_cooldown_frame_on_reject_witness :
    (check_cooldown ⟨some 0⟩ 3).state = ⟨some 0⟩ :=
  check_cooldown_frame_on_reject ⟨some 0⟩ 3
    (check_cooldown_rejects_of_lt 0 3 (by norm_num [REQUEST_COOLDOWN]))

/-- C10: with no request ever accepted, the absent timestamp is read as 0,
so the behavior matches a stored timestamp of 0 and the first request is
allowed at every current time at or above the 10-unit threshold. -/
theorem check_cooldown_uninitialized_first_allowed (t : ℚ)
    (h : REQUEST_COOLDOWN ≤ t) :
    check_cooldown ⟨none⟩ t = check_cooldown ⟨some 0⟩ t ∧
    (check_cooldown ⟨none⟩ t).allowed = true := by
  have hnot : ¬ t < REQUEST_COOLDOWN := not_lt.mpr h
  constructor <;> simp [check_cooldown, hnot]

/-- Witness for C10 at `t = 10`. -/
theorem check_cooldown_uninitialized_first_allowed_witness :
    check_cooldown ⟨none⟩ 10 = check_cooldown ⟨some 0⟩ 10 ∧
    (check_cooldown ⟨none⟩ 10).allowed = true :=
  check_cooldown_uninitialized_first_allowed 10 (by norm_num [REQUEST_COOLDOWN])

/-- C6 counterexample: with the credential absent, the recommendation app
raises at startup, but the knowledge-base builder raises no in-repo error
and still reaches the model call (here on a one-file corpus), so the
claim that both entry points fail fast before any model call is false. -/
theorem missing_key_builder_still_calls_model :
    app_startup none = Except.error "API_KEY not found in .env file" ∧
    (build_summary none [⟨"a.txt", [], "A"⟩] (fun _ => "R")).modelCalls ≠ [] ∧
    (build_summary none [⟨"a.txt", [], "A"⟩] (fun _ => "R")).buildError = none := by
  refine ⟨rfl, ?_, ?_⟩ <;> decide

/-- C6 amended: with the credential absent or empty, the recommendation
app fails fast at startup before any model call; the knowledge-base
builder performs no in-repo credential check, so its whole trace is
the same as with a valid key (it fails before the model call only if the
out-of-scope external client constructor rejects the absent key). -/
theorem missing_key_app_fails_fast_builder_unchecked
    (api_key : Option String) (dir : List DirEntry) (model : String → String)
    (h : pyFalsyStr api_key = true) :
    app_startup api_key = Except.error "API_KEY not found in .env file" ∧
    build_summary api_key dir model = build_summary (some "a-valid-key") dir model :=
  ⟨by simp [app_startup, h], rfl⟩

/-- Witness for the amended C6 at an absent key and a one-file directory. -/
theorem missing_key_app_fails_fast_builder_unchecked_witness :
    app_startup none = Except.error "API_KEY not found in .env file" ∧
    build_summary none [⟨"a.txt", [], "A"⟩] (fun _ => "R")
      = build_summary (some "a-valid-key") [⟨"a.txt", [], "A"⟩] (fun _ => "R") :=
  missing_key_app_fails_fast_builder_unchecked none [⟨"a.txt", [], "A"⟩]
    (fun _ => "R") rfl

/-- C7: when the concatenated corpus strips to empty (in particular for an
empty directory), the builder fails with the empty-corpus error, performs
no model call, and neither creates nor overwrites the output file. -/
theorem empty_corpus_fails_without_write
    (api_key : Option String) (dir : List DirEntry) (model : String → String)
    (h : pyStripEmpty (all_text dir) = true) :
    (build_summary api_key dir model).buildError = some "No text found in documents." ∧
    (build_summary api_key dir model).modelCalls = [] ∧
    (build_summary api_key dir model).written = none := by
  simp [build_summary, h]

/-- Witness for C7 at the empty documents directory. -/
theorem empty_corpus_fails_without_write_witness :
    (build_summary none [] (fun _ => "R")).buildError
      = some "No text found in documents." ∧
    (build_summary none [] (fun _ => "R")).modelCalls = [] ∧
    (build_summary none [] (fun _ => "R")).written = none :=
  empty_corpus_fails_without_write none [] (fun _ => "R") (by decide)

/-- C8: with exactly one `.txt` file containing "A" and one `.pdf`
extracting to "B" (all other directory entries having unsupported
extensions, hence skipped), the builder sends exactly one model request,
whose input embeds the concatenation of "A" and "B" in some order, and
writes the model's response verbatim to the output file. -/
theorem builder_two_files_one_call_verbatim_write
    (eA eB : DirEntry) (l1 l2 l3 : List DirEntry)
    (api_key : Option String) (model : String → String)
    (hA1 : strEndsWith eA.name ".txt" = true)
    (hA2 : strEndsWith eA.name ".pdf" = false)
    (hA3 : eA.txtContent = "A")
    (hB1 : strEndsWith eB.name ".pdf" = true)
    (hB3 : extract_text_from_pdf eB.pdfPages = "B")
    (hU : ∀ e ∈ l1 ++ l2 ++ l3,
      strEndsWith e.name ".pdf" = false ∧ strEndsWith e.name ".txt" = false)
    (dir : List DirEntry)
    (hdir : dir = l1 ++ [eA] ++ l2 ++ [eB] ++ l3 ∨
            dir = l1 ++ [eB] ++ l2 ++ [eA] ++ l3) :
    ∃ t, (t = "A" ++ "B" ∨ t = "B" ++ "A") ∧
      (build_summary api_key dir model).modelCalls = [kbPromptPre ++ t ++ "\n"] ∧
      (build_summary api_key dir model).written
        = some (model (kbPromptPre ++ t ++ "\n")) ∧
      (build_summary api_key dir model).buildError = none := by
  have hTA : entryText eA = "A" := by simp [entryText, hA1, hA2, hA3]
  have hTB : entryText eB = "B" := by simp [entryText, hB1, hB3]
  have h1 : all_text l1 = "" := all_text_unsupported l1
    (fun e he => hU e (by simp [he]))
  have h2 : all_text l2 = "" := all_text_unsupported l2
    (fun e he => hU e (by simp [he]))
  have h3 : all_text l3 = "" := all_text_unsupported l3
    (fun e he => hU e (by simp [he]))
  have key : all_text dir = "A" ++ "B" ∨ all_text dir = "B" ++ "A" := by
    rcases hdir with hd | hd <;>
      · subst hd
        simp only [all_text_append, all_text_single, h1, h2, h3, hTA, hTB]
        simp
  rcases key with hk | hk
  · refine ⟨"A" ++ "B", Or.inl rfl, ?_⟩
    have hne : pyStripEmpty "AB" = false := by decide
    simp [build_summary, kb_prompt, hk, hne]
  · refine ⟨"B" ++ "A", Or.inr rfl, ?_⟩
    have hne : pyStripEmpty "BA" = false := by decide
    simp [build_summary, kb_prompt, hk, hne]

/-- Witness for C8: directory `[x.jpg, a.txt "A", b.pdf ⟨"B"⟩]`. -/
theorem builder_two_files_one_call_verbatim_write_witness :
    ∃ t, (t = "A" ++ "B" ∨ t = "B" ++ "A") ∧
      (build_summary none
        [⟨"x.jpg", [], "Z"⟩, ⟨"a.txt", [], "A"⟩, ⟨"b.pdf", [some "B"], ""⟩]
        (fun _ => "R")).modelCalls = [kbPromptPre ++ t ++ "\n"] ∧
      (build_summary none
        [⟨"x.jpg", [], "Z"⟩, ⟨"a.txt", [], "A"⟩, ⟨"b.pdf", [some "B"], ""⟩]
        (fun _ => "R")).written
        = some ((fun _ : String => "R") (kbPromptPre ++ t ++ "\n")) ∧
      (build_summary none
        [⟨"x.jpg", [], "Z"⟩, ⟨"a.txt", [], "A"⟩, ⟨"b.pdf", [some "B"], ""⟩]
        (fun _ => "R")).buildError = none :=
  builder_two_files_one_call_verbatim_write
    ⟨"a.txt", [], "A"⟩ ⟨"b.pdf", [some "B"], ""⟩
    [⟨"x.jpg", [], "Z"⟩] [] [] none (fun _ => "R")
    (by decide) (by decide) rfl (by decide) rfl
    (by decide)
    [⟨"x.jpg", [], "Z"⟩, ⟨"a.txt", [], "A"⟩, ⟨"b.pdf", [some "B"], ""⟩]
    (Or.inl rfl)

/-- C9: after any analysis attempt that passed the cooldown check —
regardless of whether the upload, the retried model call, or the
rendering succeed or fail — the temporary audio file no longer exists. -/
theorem temp_audio_removed_after_attempt {α : Type}
    (fs0 : String → Bool) (temp_path : String) (env : AnalysisEnv α) :
    (run_analysis fs0 temp_path env).fs temp_path = false := by
  simp only [run_analysis, fsWrite, fsRemove]
  split <;> simp [fsRemove, fsWrite]

end AIRec
